import Mathlib

/-!
Shallow embedding of the webdriver_manager crate (src/drivers/chromedriver.rs,
src/downloader.rs, src/error.rs) and proofs about its resolution, installation
and verification logic.

Strings from the Rust source are modelled as lists of characters (Str), and
filesystem paths as lists of path components (Path).  External effects
(the HTTP fetch of the manifest, process spawning, the blocking-task join)
are passed in as explicit outcome values, so every function here is the pure
residue of the corresponding Rust function on those outcomes.
-/

namespace WDM

/-- Rust String / str, as a list of characters. -/
abbrev Str := List Char

/-- Shorthand turning a Lean string literal into the Str model. -/
def str (s : String) : Str := s.data

/-- Filesystem path, as its list of components. -/
abbrev Path := List Str

deriving instance DecidableEq for Except

/-- Kind of a reqwest::Error.  The reqwest crate uses one error type both for
transport-level failures and for response-body decode failures (its
Response::json method wraps serde_json errors as decode-kind reqwest errors). -/
inductive ReqwestErrorKind where
  | transport
  | decode
deriving DecidableEq

/-- WebDriverError from src/error.rs.  Variants keep the context fields of the
source; opaque wrapped causes (std::io::Error, serde_json::Error,
FromUtf8Error, zip::result::ZipError) are dropped, and the NetworkError
variant keeps the kind of the wrapped reqwest::Error. -/
inductive WebDriverError where
  | CommandExecutionError (command : Str)
  | CommandOutputParsingError (command : Str)
  | BrowserNotFound
  | BrowserVersionParsingError (output : Str)
  | NetworkError (kind : ReqwestErrorKind)
  | JsonParseError (url : Str)
  | DriverVersionNotFound (browser_version : Str) (platform : Str)
  | DriverUrlNotFound (driver_version : Str) (platform : Str)
  | IoError (path : Path)
  | ZipError (path : Path)
  | DriverExecutableNotFound (path : Path)
  | DriverVerificationError (path : Path)
  | Custom (msg : Str)
  | UnsupportedPlatform (desc : Str)
  | VerificationError (msg : Str)
deriving DecidableEq

/-- Download from src/drivers/chromedriver.rs: one platform/url pair. -/
structure Download where
  platform : Str
  url : Str
deriving DecidableEq

/-- VersionDownloads from src/drivers/chromedriver.rs: the chromedriver key is
optional because some manifest entries lack it. -/
structure VersionDownloads where
  chromedriver : Option (List Download)
deriving DecidableEq

/-- Version from src/drivers/chromedriver.rs: one manifest entry. -/
structure Version where
  version : Str
  downloads : VersionDownloads
deriving DecidableEq

/-- KnownGoodVersions from src/drivers/chromedriver.rs: the parsed manifest. -/
structure KnownGoodVersions where
  versions : List Version
deriving DecidableEq

/-- Outcome of the manifest fetch, reqwest::get(...).await followed by
.json().await, seen from the outside: the GET itself fails, or the body fails
to decode as a KnownGoodVersions value, or decoding succeeds. -/
inductive ManifestFetchOutcome where
  | transportError
  | decodeError
  | success (body : KnownGoodVersions)

/-- How get_chromedriver_download_url handles the two awaited reqwest results:
both question-mark operators convert the reqwest::Error through the
NetworkError From impl of src/error.rs, so a transport failure and a
malformed body both surface as NetworkError (of different kinds). -/
def handleFetch : ManifestFetchOutcome → Except WebDriverError KnownGoodVersions
  | .transportError => .error (.NetworkError .transport)
  | .decodeError => .error (.NetworkError .decode)
  | .success body => .ok body

/-- Splits a string at its LAST dot: returns (before, after), or none when the
string has no dot.  This is the combinatorial content of
rsplitn(2, Char.ofNat 46) in the source. -/
def splitLastDot : Str → Option (Str × Str)
  | [] => none
  | c :: cs =>
    match splitLastDot cs with
    | some (pre, post) => some (c :: pre, post)
    | none => if c = '.' then some ([], cs) else none

/-- The major-line derivation of src/drivers/chromedriver.rs lines 151-156:
browser_version.rsplitn(2, dot).nth(1) is the part of the string before its
last dot, and is absent when the string has no dot. -/
def major_browser_version (browser_version : Str) : Option Str :=
  (splitLastDot browser_version).map Prod.fst

/-- Platform identifier mapping of src/drivers/chromedriver.rs lines 129-142:
the match over (std::env::consts::OS, std::env::consts::ARCH), with the
catch-all arm producing UnsupportedPlatform over the formatted os-arch pair. -/
def platformIdentifier (os arch : Str) : Except WebDriverError Str :=
  if os = str "windows" ∧ arch = str "x86_64" then .ok (str "win64")
  else if os = str "windows" ∧ arch = str "x86" then .ok (str "win32")
  else if os = str "macos" ∧ arch = str "x86_64" then .ok (str "mac-x64")
  else if os = str "macos" ∧ arch = str "aarch64" then .ok (str "mac-arm64")
  else if os = str "linux" ∧ arch = str "x86_64" then .ok (str "linux64")
  else .error (.UnsupportedPlatform (os ++ '-' :: arch))

/-- get_chromedriver_download_url from src/drivers/chromedriver.rs lines
124-187, with the runtime platform and the network outcome passed in
explicitly.  Stages, in source order: platform match; fetch and JSON-decode of
the manifest; major-line derivation via rsplitn; filter-then-last selection of
the manifest entry; lookup of the optional chromedriver download list; find of
the first download whose platform field equals the platform identifier. -/
def get_chromedriver_download_url (os arch : Str) (net : ManifestFetchOutcome)
    (browser_version : Str) : Except WebDriverError (Str × Str) :=
  match platformIdentifier os arch with
  | .error e => .error e
  | .ok platform =>
    match handleFetch net with
    | .error e => .error e
    | .ok response =>
      match major_browser_version browser_version with
      | none => .error (.BrowserVersionParsingError browser_version)
      | some major =>
        match (response.versions.filter
            (fun v => major.isPrefixOf v.version)).getLast? with
        | none => .error (.DriverVersionNotFound browser_version platform)
        | some best_match =>
          match best_match.downloads.chromedriver with
          | none => .error (.DriverUrlNotFound best_match.version platform)
          | some dls =>
            match dls.find? (fun d => d.platform == platform) with
            | none => .error (.DriverUrlNotFound best_match.version platform)
            | some download => .ok (best_match.version, download.url)

/-- get_driver_version of the WebDriverManager impl for ChromeDriver
(src/drivers/chromedriver.rs lines 30-33): first component of the resolution
result. -/
def get_driver_version (os arch : Str) (net : ManifestFetchOutcome)
    (browser_version : Str) : Except WebDriverError Str :=
  (get_chromedriver_download_url os arch net browser_version).map
    (fun r => r.fst)

/-- get_download_url of the WebDriverManager impl for ChromeDriver
(src/drivers/chromedriver.rs lines 35-39): the argument is re-used as a
browser version and the second component of the resolution result is
returned. -/
def get_download_url (os arch : Str) (net : ManifestFetchOutcome)
    (driver_version : Str) : Except WebDriverError Str :=
  (get_chromedriver_download_url os arch net driver_version).map
    (fun r => r.snd)

/-! Downloader model (src/downloader.rs). -/

/-- One component of an archive entry name, in the classification used by the
zip crate when sanitising names. -/
inductive PathComp where
  | normal (name : Str)
  | parentDir
  | rootDir
deriving DecidableEq

/-- A component survives sanitisation only when it is a normal name. -/
def compNormal : PathComp → Option Str
  | .normal name => some name
  | .parentDir => none
  | .rootDir => none

/-- Modelled from the zip crate contract of ZipFile::enclosed_name, which
src/downloader.rs line 103 relies on: the entry name converted to a relative
path, or None when the name is absolute or escapes upward through a parent-dir
component, so that joining the result onto the extraction directory cannot
leave that directory. -/
def enclosed_name (raw : List PathComp) : Option Path :=
  raw.mapM compNormal

/-- One archive entry as the extraction loop of src/downloader.rs lines
97-146 sees it: its raw name and whether the raw name ends with a slash
(the directory test of line 108). -/
structure ZipEntry where
  rawName : List PathComp
  isDir : Bool
deriving DecidableEq

/-- The write targets of the extraction loop of src/downloader.rs lines
97-146: for each entry, enclosed_name is consulted; None means the entry is
skipped by the continue on line 105; Some path means the loop creates a
directory (line 109) or a file (line 124) at extract_to joined with that
path.  Intermediate directories created by the create_dir_all on line 117 are
parents of this target extending extract_to, so the recorded target path per
entry covers every newly created location. -/
def unzip_loop (extract_to : Path) : List ZipEntry → List Path
  | [] => []
  | e :: rest =>
    match enclosed_name e.rawName with
    | none => unzip_loop extract_to rest
    | some p => (extract_to ++ p) :: unzip_loop extract_to rest

/-- Whether the tokio spawn_blocking task of src/downloader.rs line 80 ran to
completion or panicked, as seen by the awaited JoinHandle. -/
inductive JoinOutcome where
  | completed
  | panicked
deriving DecidableEq

/-- What the caller of an async function observes: a returned value, or a
panic unwinding through the call. -/
inductive TaskResult (α : Type) where
  | returned (value : α)
  | panicked
deriving DecidableEq

/-- unzip_file from src/downloader.rs lines 75-152: the blocking closure
performs the extraction loop (modelled by its list of write targets), and the
awaited join result is passed to Result::unwrap on line 150, so a completed
task hands its value through while a panicked task makes unwrap panic in the
calling context. -/
def unzip_file (extract_to : Path) (entries : List ZipEntry)
    (join : JoinOutcome) : TaskResult (Except WebDriverError (List Path)) :=
  match join with
  | .completed => .returned (.ok (unzip_loop extract_to entries))
  | .panicked => .panicked

/-- The executable name searched by find_driver_executable
(src/downloader.rs lines 157-161): the cfg windows check appends .exe to the
driver name. -/
def driver_exe_name (is_windows : Bool) (driver_name : Str) : Str :=
  if is_windows then driver_name ++ str ".exe" else driver_name

/-- find_driver_executable from src/downloader.rs lines 155-181: WalkDir
yields the tree under search_path (every yielded path is search_path joined
with a relative descent, passed in here as walk); the first entry whose file
name component equals the searched executable name is returned, and a full
walk with no match produces the VerificationError of line 177. -/
def find_driver_executable (is_windows : Bool) (search_path : Path)
    (walk : List Path) (driver_name : Str) : Except WebDriverError Path :=
  match (walk.map (fun rel => search_path ++ rel)).find?
      (fun p => p.getLast? == some (driver_exe_name is_windows driver_name)) with
  | some p => .ok p
  | none =>
    .error (.VerificationError
      (str "Could not find " ++ driver_exe_name is_windows driver_name ++
        str " in the extracted files."))

/-- download_and_unzip from src/downloader.rs lines 9-35: create a temporary
directory, download the archive into it, extract the archive into
install_path, then search install_path (never the temporary directory) for
the executable.  The fallible effects of steps 1 and 2 are passed in as
outcomes; step 3 is unzip_file above, whose panic also unwinds through this
function. -/
def download_and_unzip (temp_outcome : Except WebDriverError Unit)
    (dl_outcome : Except WebDriverError Unit) (join : JoinOutcome)
    (entries : List ZipEntry) (is_windows : Bool) (install_path : Path)
    (walk : List Path) (driver_name : Str) :
    TaskResult (Except WebDriverError Path) :=
  match temp_outcome with
  | .error e => .returned (.error e)
  | .ok _ =>
    match dl_outcome with
    | .error e => .returned (.error e)
    | .ok _ =>
      match unzip_file install_path entries join with
      | .panicked => .panicked
      | .returned (.error e) => .returned (.error e)
      | .returned (.ok _) =>
        .returned (find_driver_executable is_windows install_path walk
          driver_name)

/-! Verifier model (src/drivers/chromedriver.rs lines 55-90). -/

/-- Strict UTF-8 decoding of a byte sequence, as performed by Rust
String::from_utf8: ASCII, two, three and four byte forms, rejecting stray
continuation bytes, overlong encodings, surrogate code points and code points
above 0x10FFFF. -/
def utf8Decode : List Nat → Option Str
  | [] => some []
  | b :: rest =>
    if b < 0x80 then
      (utf8Decode rest).map (fun s => Char.ofNat b :: s)
    else if b < 0xC2 then none
    else if b < 0xE0 then
      match rest with
      | b1 :: rest2 =>
        if 0x80 ≤ b1 ∧ b1 < 0xC0 then
          (utf8Decode rest2).map
            (fun s => Char.ofNat ((b - 0xC0) * 0x40 + (b1 - 0x80)) :: s)
        else none
      | [] => none
    else if b < 0xF0 then
      match rest with
      | b1 :: b2 :: rest2 =>
        if (0x80 ≤ b1 ∧ b1 < 0xC0) ∧ (0x80 ≤ b2 ∧ b2 < 0xC0) then
          let cp := (b - 0xE0) * 0x1000 + (b1 - 0x80) * 0x40 + (b2 - 0x80)
          if cp < 0x800 ∨ (0xD800 ≤ cp ∧ cp < 0xE000) then none
          else (utf8Decode rest2).map (fun s => Char.ofNat cp :: s)
        else none
      | _ => none
    else if b < 0xF5 then
      match rest with
      | b1 :: b2 :: b3 :: rest2 =>
        if (0x80 ≤ b1 ∧ b1 < 0xC0) ∧ (0x80 ≤ b2 ∧ b2 < 0xC0) ∧
            (0x80 ≤ b3 ∧ b3 < 0xC0) then
          let cp := (b - 0xF0) * 0x40000 + (b1 - 0x80) * 0x1000 +
            (b2 - 0x80) * 0x40 + (b3 - 0x80)
          if cp < 0x10000 ∨ 0x110000 ≤ cp then none
          else (utf8Decode rest2).map (fun s => Char.ofNat cp :: s)
        else none
      | _ => none
    else none

/-- Rust str::contains for a string pattern: some suffix of the text starts
with the pattern. -/
def strContains : Str → Str → Bool
  | [], pat => pat.isEmpty
  | c :: rest, pat => pat.isPrefixOf (c :: rest) || strContains rest pat

/-- The process output observed by verify_driver: the success flag of the
exit status and the raw stdout bytes. -/
structure ProcessOutput where
  status_success : Bool
  stdout : List Nat
deriving DecidableEq

/-- Outcome of spawning the driver process: the spawn itself can fail with an
io error, or the process runs and yields an output. -/
inductive SpawnOutcome where
  | spawnError
  | completed (output : ProcessOutput)

/-- verify_driver from src/drivers/chromedriver.rs lines 55-90, with the
spawn outcome passed in.  A spawn failure maps to CommandExecutionError; a
non-success exit status maps to VerificationError before stdout is examined;
stdout that is not valid UTF-8 maps to CommandOutputParsingError; decoded
stdout lacking the ChromeDriver marker maps to VerificationError with the
formatted message of lines 82-85 (source spelling kept); otherwise Ok.  The
command field of the two command errors abstracts the formatted Debug
representation of the tokio Command by the driver path. -/
def verify_driver (driver_path : Str) (spawn : SpawnOutcome) :
    Except WebDriverError Unit :=
  match spawn with
  | .spawnError => .error (.CommandExecutionError driver_path)
  | .completed output =>
    if output.status_success = false then
      .error (.VerificationError
        (str "Driver process exited with a non-zero status."))
    else
      match utf8Decode output.stdout with
      | none => .error (.CommandOutputParsingError driver_path)
      | some stdout =>
        if strContains stdout (str "ChromeDriver") = false then
          .error (.VerificationError
            (str "Unexpected outpur during verificatioon: " ++ stdout))
        else .ok ()

/-! Lemmas about the major-line derivation. -/

/-- Strings without a dot have no split point. -/
lemma splitLastDot_eq_none : ∀ l : Str, '.' ∉ l → splitLastDot l = none := by
  intro l
  induction l with
  | nil => intro _; rfl
  | cons c cs ih =>
    intro h
    simp only [List.mem_cons, not_or] at h
    rw [splitLastDot, ih h.2]
    exact if_neg fun hc => h.1 hc.symm

/-- Splitting at the last dot of a string whose final dot-separated component
is post and whose part before that dot is pre yields exactly (pre, post). -/
lemma splitLastDot_append : ∀ pre post : Str, '.' ∉ post →
    splitLastDot (pre ++ '.' :: post) = some (pre, post) := by
  intro pre post h
  induction pre with
  | nil => simp [splitLastDot, splitLastDot_eq_none post h]
  | cons c cs ih => simp [splitLastDot, ih]

/-- Claim C2: the derived major-line prefix of a browser version equals the
string with its last dot-separated component removed (concretely,
138.0.7204.158 yields exactly 138.0.7204), and for a version containing no
dot, resolution fails with BrowserVersionParsingError carrying the input
string (independently of the fetched manifest, so selection is never
reached). -/
theorem c2_major_line_derivation :
    (∀ pre post : Str, '.' ∉ post →
      major_browser_version (pre ++ '.' :: post) = some pre) ∧
    major_browser_version (str "138.0.7204.158") = some (str "138.0.7204") ∧
    (∀ os arch net bv p m,
      platformIdentifier os arch = .ok p → handleFetch net = .ok m →
      '.' ∉ bv →
      get_chromedriver_download_url os arch net bv =
        .error (.BrowserVersionParsingError bv)) := by
  refine ⟨?_, by decide, ?_⟩
  · intro pre post h
    simp [major_browser_version, splitLastDot_append pre post h]
  · intro os arch net bv p m hp hf hdot
    have hm : major_browser_version bv = none := by
      simp [major_browser_version, splitLastDot_eq_none bv hdot]
    simp [get_chromedriver_download_url, hp, hf, hm]

/-- Witness for C2 at concrete inputs: prefix of 120.7 is 120, and the
dotless version nodots fails with the parsing error on a supported
platform with a successfully fetched empty manifest. -/
theorem c2_witness :
    major_browser_version (str "120" ++ '.' :: str "7") = some (str "120") ∧
    get_chromedriver_download_url (str "linux") (str "x86_64")
      (.success ⟨[]⟩) (str "nodots") =
      .error (.BrowserVersionParsingError (str "nodots")) :=
  ⟨c2_major_line_derivation.1 (str "120") (str "7") (by decide),
   c2_major_line_derivation.2.2 (str "linux") (str "x86_64") (.success ⟨[]⟩)
     (str "nodots") (str "linux64") ⟨[]⟩ (by decide) (by decide) (by decide)⟩

/-- Claim C5: the platform-identifier mapping sends exactly the five
supported (os, arch) pairs to their identifiers, and for every pair outside
the five, resolution fails with UnsupportedPlatform naming the os and arch,
for every network outcome (the failure does not depend on the fetch, which
in the source happens strictly after the platform match). -/
theorem c5_platform_identifier_mapping :
    platformIdentifier (str "windows") (str "x86_64") = .ok (str "win64") ∧
    platformIdentifier (str "windows") (str "x86") = .ok (str "win32") ∧
    platformIdentifier (str "macos") (str "x86_64") = .ok (str "mac-x64") ∧
    platformIdentifier (str "macos") (str "aarch64") = .ok (str "mac-arm64") ∧
    platformIdentifier (str "linux") (str "x86_64") = .ok (str "linux64") ∧
    (∀ os arch : Str,
      (os, arch) ∉ [(str "windows", str "x86_64"), (str "windows", str "x86"),
        (str "macos", str "x86_64"), (str "macos", str "aarch64"),
        (str "linux", str "x86_64")] →
      ∀ net bv, get_chromedriver_download_url os arch net bv =
        .error (.UnsupportedPlatform (os ++ '-' :: arch))) := by
  refine ⟨by decide, by decide, by decide, by decide, by decide, ?_⟩
  intro os arch h net bv
  simp only [List.mem_cons, List.not_mem_nil, or_false, not_or,
    Prod.mk.injEq, not_and] at h
  obtain ⟨h1, h2, h3, h4, h5⟩ := h
  have hpi : platformIdentifier os arch =
      .error (.UnsupportedPlatform (os ++ '-' :: arch)) := by
    rw [platformIdentifier, if_neg fun hc => h1 hc.1 hc.2,
      if_neg fun hc => h2 hc.1 hc.2, if_neg fun hc => h3 hc.1 hc.2,
      if_neg fun hc => h4 hc.1 hc.2, if_neg fun hc => h5 hc.1 hc.2]
  simp [get_chromedriver_download_url, hpi]

/-- Witness for C5 at the unsupported pair (plan9, mips). -/
theorem c5_witness :
    get_chromedriver_download_url (str "plan9") (str "mips")
      .transportError (str "1.2") =
      .error (.UnsupportedPlatform (str "plan9" ++ '-' :: str "mips")) :=
  c5_platform_identifier_mapping.2.2.2.2.2 (str "plan9") (str "mips")
    (by decide) .transportError (str "1.2")

/-- Claim C1: resolution filters the manifest entries whose version starts
with the major-line prefix and selects the last match in manifest order (its
version is what resolution returns, whatever the platform lookup then
yields); no match yields DriverVersionNotFound with the browser version and
platform.  Concretely, the manifest containing the single entry 120.0.1.1
with a linux64 chromedriver download resolves browser version 120.0.1.9 on
linux64 to (120.0.1.1, http://x/a.zip); and in an ascending manifest holding
120.0.1.9 before 120.0.1.10, resolution picks 120.0.1.10 (the highest index
among matches), not the lexicographically largest string 120.0.1.9. -/
theorem c1_last_match_selected :
    (∀ os arch net bv p m major,
      platformIdentifier os arch = .ok p → handleFetch net = .ok m →
      major_browser_version bv = some major →
      ((m.versions.filter (fun v => major.isPrefixOf v.version)) = [] →
        get_chromedriver_download_url os arch net bv =
          .error (.DriverVersionNotFound bv p)) ∧
      (∀ e, (m.versions.filter
          (fun v => major.isPrefixOf v.version)).getLast? = some e →
        (∃ u, get_chromedriver_download_url os arch net bv =
          .ok (e.version, u)) ∨
        get_chromedriver_download_url os arch net bv =
          .error (.DriverUrlNotFound e.version p))) ∧
    get_chromedriver_download_url (str "linux") (str "x86_64")
      (.success ⟨[⟨str "120.0.1.1",
        ⟨some [⟨str "linux64", str "http://x/a.zip"⟩]⟩⟩]⟩)
      (str "120.0.1.9") = .ok (str "120.0.1.1", str "http://x/a.zip") ∧
    get_chromedriver_download_url (str "linux") (str "x86_64")
      (.success ⟨[⟨str "120.0.1.9",
          ⟨some [⟨str "linux64", str "http://x/b.zip"⟩]⟩⟩,
        ⟨str "120.0.1.10",
          ⟨some [⟨str "linux64", str "http://x/a.zip"⟩]⟩⟩]⟩)
      (str "120.0.1.5") = .ok (str "120.0.1.10", str "http://x/a.zip") := by
  refine ⟨?_, by decide, by decide⟩
  intro os arch net bv p m major hp hf hmaj
  constructor
  · intro hempty
    simp [get_chromedriver_download_url, hp, hf, hmaj, hempty]
  · intro e he
    simp only [get_chromedriver_download_url, hp, hf, hmaj, he]
    cases hd : e.downloads.chromedriver with
    | none => right; simp [hd]
    | some dls =>
      cases hfind : dls.find? (fun d => d.platform == p) with
      | none => right; simp [hd, hfind]
      | some dl => left; exact ⟨dl.url, by simp [hd, hfind]⟩

/-- Witness for C1: the general selection statement applied to the concrete
single-entry manifest of the claim. -/
theorem c1_witness :
    (∃ u, get_chromedriver_download_url (str "linux") (str "x86_64")
      (.success ⟨[⟨str "120.0.1.1",
        ⟨some [⟨str "linux64", str "http://x/a.zip"⟩]⟩⟩]⟩)
      (str "120.0.1.9") = .ok (str "120.0.1.1", u)) ∨
    get_chromedriver_download_url (str "linux") (str "x86_64")
      (.success ⟨[⟨str "120.0.1.1",
        ⟨some [⟨str "linux64", str "http://x/a.zip"⟩]⟩⟩]⟩)
      (str "120.0.1.9") =
      .error (.DriverUrlNotFound (str "120.0.1.1") (str "linux64")) :=
  (c1_last_match_selected.1 (str "linux") (str "x86_64")
    (.success ⟨[⟨str "120.0.1.1",
      ⟨some [⟨str "linux64", str "http://x/a.zip"⟩]⟩⟩]⟩)
    (str "120.0.1.9") (str "linux64")
    ⟨[⟨str "120.0.1.1", ⟨some [⟨str "linux64", str "http://x/a.zip"⟩]⟩⟩]⟩
    (str "120.0.1")
    (by decide) (by decide) (by decide)).2
    ⟨str "120.0.1.1", ⟨some [⟨str "linux64", str "http://x/a.zip"⟩]⟩⟩
    (by decide)

/-- Claim C6: when a manifest entry has been selected by major-line matching,
a missing chromedriver download list, or a list with no element for the
resolved platform, both fail with DriverUrlNotFound carrying the selected
entry version and the platform; and with a selected entry the result is
never DriverVersionNotFound, which distinguishes the two errors. -/
theorem c6_driver_url_not_found :
    ∀ os arch net bv p m major e,
      platformIdentifier os arch = .ok p → handleFetch net = .ok m →
      major_browser_version bv = some major →
      (m.versions.filter (fun v => major.isPrefixOf v.version)).getLast? =
        some e →
      ((e.downloads.chromedriver = none →
        get_chromedriver_download_url os arch net bv =
          .error (.DriverUrlNotFound e.version p)) ∧
      (∀ dls, e.downloads.chromedriver = some dls →
        dls.find? (fun d => d.platform == p) = none →
        get_chromedriver_download_url os arch net bv =
          .error (.DriverUrlNotFound e.version p)) ∧
      (∀ bv2 p2, get_chromedriver_download_url os arch net bv ≠
        .error (.DriverVersionNotFound bv2 p2))) := by
  intro os arch net bv p m major e hp hf hmaj he
  refine ⟨?_, ?_, ?_⟩
  · intro hd
    simp [get_chromedriver_download_url, hp, hf, hmaj, he, hd]
  · intro dls hd hfind
    simp [get_chromedriver_download_url, hp, hf, hmaj, he, hd, hfind]
  · intro bv2 p2
    simp only [get_chromedriver_download_url, hp, hf, hmaj, he]
    cases hd : e.downloads.chromedriver with
    | none => simp [hd]
    | some dls =>
      cases hfind : dls.find? (fun d => d.platform == p) with
      | none => simp [hfind]
      | some dl => simp [hfind]

/-- Witness for C6: an entry whose downloads section has no chromedriver
list at all fails with DriverUrlNotFound carrying that entry's version. -/
theorem c6_witness :
    get_chromedriver_download_url (str "linux") (str "x86_64")
      (.success ⟨[⟨str "120.0.1.1", ⟨none⟩⟩]⟩) (str "120.0.1.9") =
      .error (.DriverUrlNotFound (str "120.0.1.1") (str "linux64")) :=
  (c6_driver_url_not_found (str "linux") (str "x86_64")
    (.success ⟨[⟨str "120.0.1.1", ⟨none⟩⟩]⟩) (str "120.0.1.9")
    (str "linux64") ⟨[⟨str "120.0.1.1", ⟨none⟩⟩]⟩ (str "120.0.1")
    ⟨str "120.0.1.1", ⟨none⟩⟩
    (by decide) (by decide) (by decide) (by decide)).1 (by decide)

/-- Claim C7: verification succeeds exactly when the driver process exits
with success status and its stdout decodes as text containing the
ChromeDriver marker; a non-success exit yields VerificationError whatever
the output bytes are; undecodable stdout after a successful exit yields
CommandOutputParsingError; decodable stdout lacking the marker yields
VerificationError with the formatted message. -/
theorem c7_verify_driver_iff :
    ∀ driver_path output,
      (verify_driver driver_path (.completed output) = .ok () ↔
        output.status_success = true ∧
        ∃ s, utf8Decode output.stdout = some s ∧
          strContains s (str "ChromeDriver") = true) ∧
      (output.status_success = false →
        verify_driver driver_path (.completed output) =
          .error (.VerificationError
            (str "Driver process exited with a non-zero status."))) ∧
      (output.status_success = true → utf8Decode output.stdout = none →
        verify_driver driver_path (.completed output) =
          .error (.CommandOutputParsingError driver_path)) ∧
      (∀ s, output.status_success = true →
        utf8Decode output.stdout = some s →
        strContains s (str "ChromeDriver") = false →
        verify_driver driver_path (.completed output) =
          .error (.VerificationError
            (str "Unexpected outpur during verificatioon: " ++ s))) := by
  intro dp o
  refine ⟨⟨?_, ?_⟩, ?_, ?_, ?_⟩
  · intro h
    cases hs : o.status_success with
    | false => simp [verify_driver, hs] at h
    | true =>
      cases hd : utf8Decode o.stdout with
      | none => simp [verify_driver, hs, hd] at h
      | some s =>
        cases hc : strContains s (str "ChromeDriver") with
        | false => simp [verify_driver, hs, hd, hc] at h
        | true => exact ⟨rfl, s, rfl, hc⟩
  · rintro ⟨hs, s, hd, hc⟩
    simp [verify_driver, hs, hd, hc]
  · intro hs
    simp [verify_driver, hs]
  · intro hs hd
    simp [verify_driver, hs, hd]
  · intro s hs hd hc
    simp [verify_driver, hs, hd, hc]

/-- Witness for C7: a non-zero exit fails verification, and a zero exit with
stdout whose bytes decode to a text containing the marker succeeds. -/
theorem c7_witness :
    verify_driver (str "chromedriver") (.completed ⟨false, []⟩) =
      .error (.VerificationError
        (str "Driver process exited with a non-zero status.")) ∧
    verify_driver (str "chromedriver")
      (.completed ⟨true, (str "ChromeDriver 120.0").map Char.toNat⟩) =
      .ok () :=
  ⟨(c7_verify_driver_iff (str "chromedriver") ⟨false, []⟩).2.1 rfl,
   (c7_verify_driver_iff (str "chromedriver")
      ⟨true, (str "ChromeDriver 120.0").map Char.toNat⟩).1.mpr
     ⟨rfl, str "ChromeDriver 120.0", by decide, by decide⟩⟩

/-- A successful find_driver_executable result lies under the searched
root. -/
lemma find_driver_executable_ok_under_root :
    ∀ w sp walk dn p, find_driver_executable w sp walk dn = .ok p →
      sp <+: p := by
  intro w sp walk dn p h
  unfold find_driver_executable at h
  cases hfind : (walk.map (fun rel => sp ++ rel)).find?
      (fun q => q.getLast? == some (driver_exe_name w dn)) with
  | none => rw [hfind] at h; cases h
  | some q =>
    rw [hfind] at h
    cases h
    have hq := List.mem_of_find?_eq_some hfind
    obtain ⟨rel, _, rfl⟩ := List.mem_map.mp hq
    exact List.prefix_append sp rel

/-- Claim C3: every successful install returns an executable path below the
caller-supplied install directory (the path is produced by walking that
directory), hence never below a temporary directory that is not nested with
the install directory. -/
theorem c3_executable_under_install_dir :
    ∀ temp_outcome dl_outcome join entries is_windows install_path walk
      driver_name p,
      download_and_unzip temp_outcome dl_outcome join entries is_windows
        install_path walk driver_name = .returned (.ok p) →
      install_path <+: p ∧
      (∀ temp_path : Path, ¬ temp_path <+: install_path →
        ¬ install_path <+: temp_path → ¬ temp_path <+: p) := by
  intro t d j es w ip walk dn p h
  have hip : ip <+: p := by
    cases t with
    | error e => simp [download_and_unzip] at h
    | ok _ =>
      cases d with
      | error e => simp [download_and_unzip] at h
      | ok _ =>
        cases j with
        | panicked => simp [download_and_unzip, unzip_file] at h
        | completed =>
          simp only [download_and_unzip, unzip_file] at h
          cases hfe : find_driver_executable w ip walk dn with
          | error e => rw [hfe] at h; cases h
          | ok q =>
            rw [hfe] at h
            cases h
            exact find_driver_executable_ok_under_root w ip walk dn _ hfe
  refine ⟨hip, ?_⟩
  intro tp h1 h2 h3
  rcases List.prefix_or_prefix_of_prefix h3 hip with hc | hc
  · exact h1 hc
  · exact h2 hc

/-- Witness for C3: a concrete successful install run returns a path under
the install directory opt/drivers and not under the temporary directory. -/
theorem c3_witness :
    ([str "opt", str "drivers"] : Path) <+:
      [str "opt", str "drivers", str "chromedriver-linux64",
        str "chromedriver"] ∧
    ¬ ([str "tmp", str "webdriver-manager-abc"] : Path) <+:
      [str "opt", str "drivers", str "chromedriver-linux64",
        str "chromedriver"] := by
  have h := c3_executable_under_install_dir (.ok ()) (.ok ()) .completed []
    false [str "opt", str "drivers"]
    [[str "chromedriver-linux64", str "chromedriver"]] (str "chromedriver")
    [str "opt", str "drivers", str "chromedriver-linux64",
      str "chromedriver"] (by decide)
  exact ⟨h.1, h.2 [str "tmp", str "webdriver-manager-abc"]
    (by decide) (by decide)⟩

/-- Claim C4: extraction writes exactly at the target directory joined with
each entry's sanitised relative name, every written path lies below the
target directory, entries whose name cannot be safely resolved contribute no
write, and the extraction of any entry list completes without failing. -/
theorem c4_extraction_confined :
    ∀ extract_to entries,
      unzip_loop extract_to entries =
        entries.filterMap
          (fun e => (enclosed_name e.rawName).map
            (fun q => extract_to ++ q)) ∧
      (∀ p, p ∈ unzip_loop extract_to entries → extract_to <+: p) ∧
      unzip_file extract_to entries .completed =
        .returned (.ok (unzip_loop extract_to entries)) := by
  intro et es
  refine ⟨?_, ?_, rfl⟩
  · induction es with
    | nil => rfl
    | cons e rest ih =>
      cases hn : enclosed_name e.rawName with
      | none => simp [unzip_loop, hn, List.filterMap_cons, ih]
      | some q => simp [unzip_loop, hn, List.filterMap_cons, ih]
  · intro p
    induction es with
    | nil => intro hp; simp [unzip_loop] at hp
    | cons e rest ih =>
      intro hp
      cases hn : enclosed_name e.rawName with
      | none =>
        rw [unzip_loop, hn] at hp
        exact ih hp
      | some q =>
        rw [unzip_loop, hn] at hp
        rcases List.mem_cons.mp hp with rfl | hp2
        · exact List.prefix_append et q
        · exact ih hp2

/-- Witness for C4: an archive holding an upward-escaping entry and a normal
entry writes only the normal entry's path, which lies under the target. -/
theorem c4_witness :
    ([str "opt", str "install"] : Path) <+:
      [str "opt", str "install", str "chromedriver-linux64",
        str "chromedriver"] ∧
    unzip_loop [str "opt", str "install"]
      [⟨[.parentDir, .normal (str "evil")], false⟩,
       ⟨[.normal (str "chromedriver-linux64"),
         .normal (str "chromedriver")], false⟩] =
      [[str "opt", str "install", str "chromedriver-linux64",
        str "chromedriver"]] :=
  ⟨(c4_extraction_confined [str "opt", str "install"]
      [⟨[.parentDir, .normal (str "evil")], false⟩,
       ⟨[.normal (str "chromedriver-linux64"),
         .normal (str "chromedriver")], false⟩]).2.1
    [str "opt", str "install", str "chromedriver-linux64",
      str "chromedriver"] (by decide),
   by decide⟩

/-- Counterexample for C9: a panic in the offloaded blocking extraction task
is not returned to the caller as an error value; the Result::unwrap on
src/downloader.rs line 150 re-raises it as a panic in the calling context
(the source comment there says: propagate panics from the blocking task). -/
theorem c9_panic_counterexample :
    unzip_file [] [] JoinOutcome.panicked =
      (TaskResult.panicked : TaskResult (Except WebDriverError (List Path))) :=
  rfl

/-- Claim C9 as amended: when the blocking extraction task runs to
completion, its value (an ordinary Result) is handed through to the caller of
unzip_file, but when the task panics, the unwrap of the join result re-raises
the panic in the calling context instead of converting it into an error. -/
theorem c9_panic_amended :
    (∀ extract_to entries,
      unzip_file extract_to entries .completed =
        .returned (.ok (unzip_loop extract_to entries))) ∧
    (∀ extract_to entries,
      unzip_file extract_to entries .panicked = .panicked) :=
  ⟨fun _ _ => rfl, fun _ _ => rfl⟩

/-- A platformIdentifier failure is always UnsupportedPlatform. -/
lemma platformIdentifier_error_inv :
    ∀ os arch e, platformIdentifier os arch = .error e →
      e = .UnsupportedPlatform (os ++ '-' :: arch) := by
  intro os arch e h
  unfold platformIdentifier at h
  repeat' split at h
  all_goals first
    | (injection h with h2; exact h2.symm)
    | cases h

/-- A handleFetch failure is always a NetworkError. -/
lemma handleFetch_error_inv :
    ∀ net e, handleFetch net = .error e →
      e = .NetworkError .transport ∨ e = .NetworkError .decode := by
  intro net e h
  cases net with
  | transportError =>
    left; injection h with h2; exact h2.symm
  | decodeError =>
    right; injection h with h2; exact h2.symm
  | success body => cases h

/-- Counterexample for C8: a fetch whose body fails to decode makes
resolution fail with NetworkError (the reqwest decode error converted by the
From impl of src/error.rs line 31), not with JsonParseError. -/
theorem c8_counterexample_decode_is_network_error :
    get_chromedriver_download_url (str "linux") (str "x86_64") .decodeError
      (str "120.0.1.9") = .error (.NetworkError .decode) := by decide

/-- Claim C8 as amended: a malformed manifest body yields NetworkError of
decode kind, a transport failure yields NetworkError of transport kind, and
resolution never produces the JsonParseError variant at all (that variant of
src/error.rs is never constructed by get_chromedriver_download_url). -/
theorem c8_amended_network_error_covers_decode :
    (∀ os arch bv p, platformIdentifier os arch = .ok p →
      get_chromedriver_download_url os arch .decodeError bv =
        .error (.NetworkError .decode)) ∧
    (∀ os arch bv p, platformIdentifier os arch = .ok p →
      get_chromedriver_download_url os arch .transportError bv =
        .error (.NetworkError .transport)) ∧
    (∀ os arch net bv url,
      get_chromedriver_download_url os arch net bv ≠
        .error (.JsonParseError url)) := by
  refine ⟨?_, ?_, ?_⟩
  · intro os arch bv p hp
    simp [get_chromedriver_download_url, hp, handleFetch]
  · intro os arch bv p hp
    simp [get_chromedriver_download_url, hp, handleFetch]
  · intro os arch net bv url h
    unfold get_chromedriver_download_url at h
    cases hp : platformIdentifier os arch with
    | error e =>
      simp only [hp] at h
      have he := platformIdentifier_error_inv os arch e hp
      subst he
      simp at h
    | ok platform =>
      simp only [hp] at h
      cases hf : handleFetch net with
      | error e =>
        simp only [hf] at h
        rcases handleFetch_error_inv net e hf with rfl | rfl <;> simp at h
      | ok m =>
        simp only [hf] at h
        cases hmaj : major_browser_version bv with
        | none => simp [hmaj] at h
        | some major =>
          simp only [hmaj] at h
          cases hlast : (m.versions.filter
              (fun v => major.isPrefixOf v.version)).getLast? with
          | none => simp [hlast] at h
          | some e =>
            simp only [hlast] at h
            cases hd : e.downloads.chromedriver with
            | none => simp [hd] at h
            | some dls =>
              simp only [hd] at h
              cases hfind : dls.find? (fun d => d.platform == platform) with
              | none => simp [hfind] at h
              | some dl => simp [hfind] at h

/-- Witness for C8 as amended, on the supported pair (macos, aarch64). -/
theorem c8_witness :
    get_chromedriver_download_url (str "macos") (str "aarch64") .decodeError
      (str "120.0.1.9") = .error (.NetworkError .decode) :=
  c8_amended_network_error_covers_decode.1 (str "macos") (str "aarch64")
    (str "120.0.1.9") (str "mac-arm64") (by decide)

/-- Inversion of a successful resolution: names every intermediate value of
the pipeline. -/
lemma get_chromedriver_download_url_ok_inv :
    ∀ os arch net bv d u,
      get_chromedriver_download_url os arch net bv = .ok (d, u) →
      ∃ p m major e dls dl,
        platformIdentifier os arch = .ok p ∧
        handleFetch net = .ok m ∧
        major_browser_version bv = some major ∧
        (m.versions.filter (fun v => major.isPrefixOf v.version)).getLast? =
          some e ∧
        e.downloads.chromedriver = some dls ∧
        dls.find? (fun x => x.platform == p) = some dl ∧
        d = e.version ∧ u = dl.url := by
  intro os arch net bv d u h
  unfold get_chromedriver_download_url at h
  cases hp : platformIdentifier os arch with
  | error e => simp [hp] at h
  | ok platform =>
    simp only [hp] at h
    cases hf : handleFetch net with
    | error e => simp [hf] at h
    | ok m =>
      simp only [hf] at h
      cases hmaj : major_browser_version bv with
      | none => simp [hmaj] at h
      | some major =>
        simp only [hmaj] at h
        cases hlast : (m.versions.filter
            (fun v => major.isPrefixOf v.version)).getLast? with
        | none => simp [hlast] at h
        | some e =>
          simp only [hlast] at h
          cases hd : e.downloads.chromedriver with
          | none => simp [hd] at h
          | some dls =>
            simp only [hd] at h
            cases hfind : dls.find? (fun x => x.platform == platform) with
            | none => simp [hfind] at h
            | some dl =>
              simp only [hfind] at h
              injection h with h2
              have hv : e.version = d := congrArg Prod.fst h2
              have hu : dl.url = u := congrArg Prod.snd h2
              exact ⟨platform, m, major, e, dls, dl, rfl, rfl, rfl, hlast,
                hd, hfind, hv.symm, hu.symm⟩

/-- Counterexample for C10: with the ascending manifest (10.0x, 10.9),
get_driver_version resolves browser 10.0.5 to driver 10.0x (the entry whose
url is http://x/a.zip), but get_download_url on 10.0x strips it to the
coarser prefix 10, under which the later entry 10.9 is now the last match,
so the returned url http://x/b.zip is that of a different entry. -/
theorem c10_roundtrip_counterexample :
    get_driver_version (str "linux") (str "x86_64")
      (.success ⟨[⟨str "10.0x", ⟨some [⟨str "linux64", str "http://x/a.zip"⟩]⟩⟩,
        ⟨str "10.9", ⟨some [⟨str "linux64", str "http://x/b.zip"⟩]⟩⟩]⟩)
      (str "10.0.5") = .ok (str "10.0x") ∧
    get_download_url (str "linux") (str "x86_64")
      (.success ⟨[⟨str "10.0x", ⟨some [⟨str "linux64", str "http://x/a.zip"⟩]⟩⟩,
        ⟨str "10.9", ⟨some [⟨str "linux64", str "http://x/b.zip"⟩]⟩⟩]⟩)
      (str "10.0x") = .ok (str "http://x/b.zip") ∧
    str "http://x/b.zip" ≠ str "http://x/a.zip" :=
  ⟨by decide, by decide, by decide⟩

/-- Claim C10 as amended: whenever resolution of a browser version succeeds
with (d, u) and, additionally, d itself contains a dot and the filter by the
major-line prefix of d selects the same last manifest entry as the filter by
the browser version's prefix (which holds in particular when no later entry
matches d's prefix), then get_driver_version returns d and get_download_url
applied to d returns the same url u. -/
theorem c10_roundtrip_amended :
    ∀ os arch net bv m d u pd,
      handleFetch net = .ok m →
      get_chromedriver_download_url os arch net bv = .ok (d, u) →
      major_browser_version d = some pd →
      (∀ major, major_browser_version bv = some major →
        (m.versions.filter (fun v => pd.isPrefixOf v.version)).getLast? =
        (m.versions.filter (fun v => major.isPrefixOf v.version)).getLast?) →
      get_driver_version os arch net bv = .ok d ∧
      get_download_url os arch net d = .ok u := by
  intro os arch net bv m d u pd hf h hpd hsame
  obtain ⟨p, m2, major, e, dls, dl, hp, hf2, hmaj, hlast, hdls, hfind,
    hd, hu⟩ := get_chromedriver_download_url_ok_inv os arch net bv d u h
  rw [hf] at hf2
  injection hf2 with hm
  subst hm
  constructor
  · rw [get_driver_version, h]
    rfl
  · have hlast2 : (m.versions.filter
        (fun v => pd.isPrefixOf v.version)).getLast? = some e := by
      rw [hsame major hmaj]
      exact hlast
    rw [get_download_url]
    simp only [get_chromedriver_download_url, hp, hf, hpd, hlast2, hdls,
      hfind]
    rw [hu]
    rfl

/-- Witness for C10 as amended: the single-entry manifest where the round
trip does hold. -/
theorem c10_witness :
    get_driver_version (str "linux") (str "x86_64")
      (.success ⟨[⟨str "120.0.1.1",
        ⟨some [⟨str "linux64", str "http://x/a.zip"⟩]⟩⟩]⟩)
      (str "120.0.1.9") = .ok (str "120.0.1.1") ∧
    get_download_url (str "linux") (str "x86_64")
      (.success ⟨[⟨str "120.0.1.1",
        ⟨some [⟨str "linux64", str "http://x/a.zip"⟩]⟩⟩]⟩)
      (str "120.0.1.1") = .ok (str "http://x/a.zip") :=
  c10_roundtrip_amended (str "linux") (str "x86_64")
    (.success ⟨[⟨str "120.0.1.1",
      ⟨some [⟨str "linux64", str "http://x/a.zip"⟩]⟩⟩]⟩)
    (str "120.0.1.9")
    ⟨[⟨str "120.0.1.1", ⟨some [⟨str "linux64", str "http://x/a.zip"⟩]⟩⟩]⟩
    (str "120.0.1.1") (str "http://x/a.zip") (str "120.0.1")
    (by decide) (by decide) (by decide)
    (fun major hm => by
      have h0 : major_browser_version (str "120.0.1.9") =
          some (str "120.0.1") := by decide
      rw [h0] at hm
      injection hm with hm2
      subst hm2
      rfl)

end WDM
